import Mathlib

/-!
Verification of the SmartGrades grade-calculation and prediction engine.

The Python source (`database.py`, `app.py`) is shallowly embedded below.
Scores, weights and grades are modelled as exact rationals (`ℚ`); the two
places where the source computes `x ** 0.5` (standard deviations and the
consistency score) are modelled with `Real.sqrt`.  Python expressions that
can raise (`ZeroDivisionError` on division, `TypeError` on subscripting a
missing row) are modelled in the `Except PyErr` monad; results fetched from
external collaborators (the SQLite storage layer, the scikit-learn
regression fits) are modelled as `Except`-valued inputs, since those
libraries are outside the repository.  Python's `round(x, d)` (round half
to even) is modelled exactly on the rational value.
-/

namespace SmartGrades

/-- Exceptions a modelled Python expression can raise. -/
inductive PyErr where
  | zeroDivision : PyErr
  | typeError : PyErr
  | storage : PyErr
deriving DecidableEq

/-- Python division: raises `ZeroDivisionError` when the denominator is zero. -/
def pyDivQ (a b : ℚ) : Except PyErr ℚ :=
  if b = 0 then .error .zeroDivision else .ok (a / b)

/-- Python `round(q)` to an integer: round half to even. -/
def pyRoundInt (q : ℚ) : ℤ :=
  if q - ⌊q⌋ < 1 / 2 then ⌊q⌋
  else if 1 / 2 < q - ⌊q⌋ then ⌊q⌋ + 1
  else if ⌊q⌋ % 2 = 0 then ⌊q⌋ else ⌊q⌋ + 1

/-- Python `round(q, d)` on an exact rational value. -/
def pyRoundTo (d : ℕ) (q : ℚ) : ℚ :=
  (pyRoundInt (q * 10 ^ d) : ℚ) / 10 ^ d

/-- Python `round(x)` on a real value: round half to even. -/
noncomputable def pyRoundIntR (x : ℝ) : ℤ :=
  if x - ⌊x⌋ < 1 / 2 then ⌊x⌋
  else if 1 / 2 < x - ⌊x⌋ then ⌊x⌋ + 1
  else if ⌊x⌋ % 2 = 0 then ⌊x⌋ else ⌊x⌋ + 1

/-- Python `round(x, 2)` on a real value. -/
noncomputable def pyRound2R (x : ℝ) : ℝ :=
  (pyRoundIntR (x * 100) : ℝ) / 100

/-- Arithmetic mean of a list, as computed by the source (`sum(l)/len(l)`). -/
def listMean (l : List ℚ) : ℚ := l.sum / (l.length : ℚ)

/-- Population variance as computed by the source
(`sum((x - mean) ** 2 for x in l) / len(l)`). -/
def listVariance (l : List ℚ) : ℚ :=
  (l.map (fun x => (x - listMean l) ^ 2)).sum / (l.length : ℚ)

/-- Python `max(l)` for a nonempty list (0 on the empty list, never used there). -/
def listMax : List ℚ → ℚ
  | [] => 0
  | h :: t => t.foldl max h

/-- Python `min(l)` for a nonempty list (0 on the empty list, never used there). -/
def listMin : List ℚ → ℚ
  | [] => 0
  | h :: t => t.foldl min h

/-- One row of `get_student_grades`: the assessment's weight and the optional
recorded score for this enrollment (both can be NULL in the LEFT JOIN). -/
structure GradeRow where
  weight : Option ℚ
  score : Option ℚ
deriving DecidableEq

/-- The loop of `calculate_student_grade`: accumulates
`(total_weight, weighted_score, completed_weight)` over the grade rows. -/
def gradeFold : List GradeRow → ℚ × ℚ × ℚ
  | [] => (0, 0, 0)
  | r :: rest =>
    let acc := gradeFold rest
    match r.weight with
    | none => acc
    | some w =>
      match r.score with
      | none => (acc.1 + w, acc.2.1, acc.2.2)
      | some s => (acc.1 + w, acc.2.1 + s * w / 100, acc.2.2 + w)

/-- The derived grade snapshot returned by `calculate_student_grade`. -/
structure GradeSnapshot where
  total_weight : ℚ
  weighted_score : ℚ
  completed_weight : ℚ
  predicted : ℚ
  remaining_weight : ℚ
deriving DecidableEq

/-- `DatabaseManager.calculate_student_grade` (database.py): weighted-grade
aggregation over one enrollment's grade rows. -/
def calculateStudentGrade (rows : List GradeRow) : GradeSnapshot :=
  let acc := gradeFold rows
  let total_weight := acc.1
  let weighted_score := acc.2.1
  let completed_weight := acc.2.2
  { total_weight := total_weight
    weighted_score := weighted_score
    completed_weight := completed_weight
    predicted := if 0 < completed_weight then weighted_score / completed_weight * 100 else 0
    remaining_weight := max 0 (total_weight - completed_weight) }

/-- The scenario triple computed by `predict_grade` (app.py). -/
structure Scenarios where
  best_case : ℚ
  worst_case : ℚ
  required_average : ℚ
deriving DecidableEq

/-- The scenario-projection block of `predict_grade` (app.py): best case,
worst case and required average on the remaining assessments.  Python's
divisions by `total_weight` raise `ZeroDivisionError` when it is zero, which
is modelled by `pyDivQ`. -/
def predictGradeScenariosE (cur : GradeSnapshot) (targetGrade : ℚ) :
    Except PyErr Scenarios :=
  if 0 < cur.remaining_weight then do
    let bc ← pyDivQ (cur.weighted_score + cur.remaining_weight) cur.total_weight
    let wc ← pyDivQ cur.weighted_score cur.total_weight
    let ra ← pyDivQ (targetGrade / 100 * cur.total_weight - cur.weighted_score)
      cur.remaining_weight
    .ok { best_case := bc * 100
          worst_case := wc * 100
          required_average := max 0 (min 100 (ra * 100)) }
  else
    .ok { best_case := cur.predicted
          worst_case := cur.predicted
          required_average := cur.predicted }

/-- Letter-grade histogram of `get_class_statistics`. -/
structure GradeDistribution where
  A : ℕ
  B : ℕ
  C : ℕ
  D : ℕ
  E : ℕ
deriving DecidableEq

/-- One iteration of the letter-grade bucketing loop in `get_class_statistics`. -/
def bucketStep (d : GradeDistribution) (g : ℚ) : GradeDistribution :=
  if 90 ≤ g then { d with A := d.A + 1 }
  else if 80 ≤ g then { d with B := d.B + 1 }
  else if 70 ≤ g then { d with C := d.C + 1 }
  else if 60 ≤ g then { d with D := d.D + 1 }
  else { d with E := d.E + 1 }

/-- The letter-grade distribution of a list of predicted grades. -/
def gradeDistributionOf (grades : List ℚ) : GradeDistribution :=
  grades.foldl bucketStep ⟨0, 0, 0, 0, 0⟩

/-- `sum(1 for g in grades if g >= 60)` in `get_class_statistics`. -/
def passingCount (grades : List ℚ) : ℕ :=
  grades.countP (fun g => decide (60 ≤ g))

/-- The statistics record returned by `get_class_statistics`. -/
structure ClassStats where
  student_count : ℕ
  mean_grade : ℚ
  std_deviation : ℝ
  highest_grade : ℚ
  lowest_grade : ℚ
  grade_distribution : GradeDistribution
  passing_rate : ℚ

/-- The `grades` list built by `get_class_statistics`: each enrollment's
predicted grade from `calculate_student_grade`. -/
def predictedGradesOf (enrollments : List (List GradeRow)) : List ℚ :=
  enrollments.map (fun rows => (calculateStudentGrade rows).predicted)

/-- `DatabaseManager.get_class_statistics` (database.py), parameterised by the
per-enrollment grade rows fetched from storage.  The `predicted is None`
re-check in the source is dead in this model because `calculate_student_grade`
always returns a number. -/
noncomputable def getClassStatistics (enrollments : List (List GradeRow)) : ClassStats :=
  match enrollments with
  | [] => ⟨0, 0, 0, 0, 0, ⟨0, 0, 0, 0, 0⟩, 0⟩
  | _ :: _ =>
    let grades := predictedGradesOf enrollments
    let m := grades.sum / (grades.length : ℚ)
    let v := (grades.map (fun g => (g - m) ^ 2)).sum / (grades.length : ℚ)
    { student_count := enrollments.length
      mean_grade := pyRoundTo 2 m
      std_deviation := pyRound2R (Real.sqrt (v : ℝ))
      highest_grade := pyRoundTo 2 (listMax grades)
      lowest_grade := pyRoundTo 2 (listMin grades)
      grade_distribution := gradeDistributionOf grades
      passing_rate := pyRoundTo 2 ((passingCount grades : ℚ) / (grades.length : ℚ) * 100) }

/-- Result of `_analyze_improvement_pattern`: either the insufficient-data
sentinel or the computed pattern with its statistics. -/
inductive ImprovementInfo where
  | insufficientData : ImprovementInfo
  | analyzed (pattern : String) (improvement_rate early_average recent_average : ℚ)
deriving DecidableEq

/-- The `pattern` field of an `_analyze_improvement_pattern` result. -/
def patternOf : ImprovementInfo → String
  | .insufficientData => "insufficient_data"
  | .analyzed p _ _ _ => p

/-- `DatabaseManager._analyze_improvement_pattern` (database.py).  For fewer
than 6 scores Python slices `scores[:2]` and `scores[-2:]`; for 6 or more it
slices `scores[:n//3]` and `scores[-n//3:]`, whose start index is
`n - ceil(n/3)` because `-n//3` floors the negative quotient. -/
def analyzeImprovementPattern (scores : List ℚ) : ImprovementInfo :=
  if scores.length < 3 then .insufficientData
  else
    let n := scores.length
    let firstThird := if 6 ≤ n then scores.take (n / 3) else scores.take 2
    let lastThird := if 6 ≤ n then scores.drop (n - (n + 2) / 3) else scores.drop (n - 2)
    let firstAvg := listMean firstThird
    let lastAvg := listMean lastThird
    let difference := lastAvg - firstAvg
    let pat :=
      if 5 < difference then "improving"
      else if difference < -5 then "declining"
      else "stable"
    .analyzed pat difference firstAvg lastAvg

/-- Modelled from the claim's words (not from the source): compare the mean of
the first third (`⌊n/3⌋` scores) with the mean of the last third (`⌊n/3⌋`
scores) of the sequence; used to test the claim against the code. -/
def improvementPatternThirdsSpec (scores : List ℚ) : String :=
  if scores.length < 3 then "insufficient_data"
  else
    let n := scores.length
    let d := listMean (scores.drop (n - n / 3)) - listMean (scores.take (n / 3))
    if 5 < d then "improving" else if d < -5 then "declining" else "stable"

/-- The amended comparison rule actually implemented by
`_analyze_improvement_pattern`: first two vs last two scores when `3 ≤ n < 6`,
first `⌊n/3⌋` vs last `⌈n/3⌉` scores when `n ≥ 6`. -/
def improvementPatternAmended (scores : List ℚ) : String :=
  if scores.length < 3 then "insufficient_data"
  else
    let n := scores.length
    let d :=
      if n < 6 then listMean (scores.drop (n - 2)) - listMean (scores.take 2)
      else listMean (scores.drop (n - (n + 2) / 3)) - listMean (scores.take (n / 3))
    if 5 < d then "improving" else if d < -5 then "declining" else "stable"

/-- `DatabaseManager._calculate_consistency_score` (database.py):
`max(0, 1 - cv/0.5)` where `cv` is the coefficient of variation. -/
noncomputable def calculateConsistencyScore (scores : List ℚ) : ℝ :=
  if scores.length < 2 then 1
  else
    let m := listMean scores
    let sd : ℝ := Real.sqrt ((listVariance scores : ℚ) : ℝ)
    let cv : ℝ := if 0 < m then sd / (m : ℝ) else 0
    max 0 (1 - cv / 0.5)

/-- `DatabaseManager._calculate_trend_slope` (database.py): least-squares
slope of score against position index. -/
def calculateTrendSlope (scores : List ℚ) : ℚ :=
  let n := scores.length
  if n < 2 then 0
  else
    let xs : List ℚ := (List.range n).map (fun i => (i : ℚ))
    let xm := xs.sum / (n : ℚ)
    let ym := scores.sum / (n : ℚ)
    let num := (List.zipWith (fun x y => (x - xm) * (y - ym)) xs scores).sum
    let den := (xs.map (fun x => (x - xm) ^ 2)).sum
    if den ≠ 0 then num / den else 0

/-- One row of the student-history query in `_analyze_student_patterns`
(score is non-NULL by the WHERE clause). -/
structure StudentRow where
  score : ℚ
  name : String
  weight : ℚ
  description : Option String
deriving DecidableEq

/-- Per-assessment-type performance entry of
`_analyze_assessment_type_performance`. -/
structure TypePerf where
  scores : List ℚ
  total_weight : ℚ
  average : ℚ
  count : ℕ
deriving DecidableEq

/-- The pattern dictionary of `_analyze_student_patterns`. -/
structure StudentPatterns where
  trend_slope : ℚ
  consistency_score : ℝ
  average_performance : ℚ
  weighted_average : ℚ
  type_performance : List (String × TypePerf)
  improvement_pattern : ImprovementInfo
  total_assessments : ℕ
  perf_min : ℚ
  perf_max : ℚ
  recent_performance : List ℚ

/-- Result of `_analyze_student_patterns`: the insufficient-data sentinel or
the full pattern dictionary. -/
inductive StudentAnalysis where
  | insufficientData : StudentAnalysis
  | patterns (p : StudentPatterns) : StudentAnalysis

/-- The assessment row consumed by `_analyze_assessment_difficulty`. -/
structure AssessmentInfo where
  name : String
  weight : ℚ
  description : Option String
deriving DecidableEq

/-- The dictionary returned by `_analyze_assessment_difficulty`.  Keys absent
from one of the two Python branches are modelled as `none`. -/
structure DifficultyAnalysis where
  estimated_difficulty : Option String
  class_average : Option ℚ
  class_std_dev : Option ℝ
  difficulty : Option String
  assessment_type : String
  weight : ℚ
  score_distribution : Option (List ℚ)
  has_class_data : Bool

/-- One row of the class-wide query in `_analyze_class_patterns`. -/
structure ClassRow where
  score : ℚ
  weight : ℚ
  name : String
  enrollId : ℕ
deriving DecidableEq

/-- Result of `_analyze_class_performance_patterns`. -/
inductive ClassPerfPatterns where
  | noData : ClassPerfPatterns
  | stats (class_average : ℚ) (improving_students declining_students stable_students : ℕ)

/-- The dictionary returned by `_analyze_class_patterns`. -/
structure ClassPatterns where
  class_average : ℚ
  student_count : ℕ
  total_grades : ℕ
  performance_patterns : ClassPerfPatterns

/-- Substring check on character lists (Python's `pat in hay`). -/
def charsContain (pat : List Char) : List Char → Bool
  | [] => pat.isEmpty
  | h :: t => pat.isPrefixOf (h :: t) || charsContain pat t

/-- Python's `pat in hay` on strings. -/
def strContains (hay pat : String) : Bool := charsContain pat.data hay.data

/-- `DatabaseManager._classify_assessment_type` (database.py).  The source
lower-cases the description too but tests keywords only against the name. -/
def classifyAssessmentType (name : String) (description : Option String) : String :=
  let nl := name.toLower
  let _ := (description.getD "").toLower
  if strContains nl "quiz" then "quiz"
  else if strContains nl "exam" || strContains nl "test" then "exam"
  else if strContains nl "project" || strContains nl "assignment" then "project"
  else if strContains nl "homework" || strContains nl "hw" then "homework"
  else if strContains nl "lab" then "lab"
  else if strContains nl "presentation" then "presentation"
  else "other"

/-- `DatabaseManager._estimate_difficulty_from_weight` (database.py). -/
def estimateDifficultyFromWeight (w : ℚ) : String :=
  if 30 ≤ w then "hard" else if 20 ≤ w then "moderate" else "easy"

/-- Accumulator entry while grouping scores by assessment type. -/
structure TypeAcc where
  scores : List ℚ
  total_weight : ℚ

/-- Insertion-ordered dictionary update used by
`_analyze_assessment_type_performance`. -/
def addTypeEntry : List (String × TypeAcc) → String → ℚ → ℚ → List (String × TypeAcc)
  | [], t, s, w => [(t, ⟨[s], w⟩)]
  | (k, a) :: rest, t, s, w =>
    if k = t then (k, ⟨a.scores ++ [s], a.total_weight + w⟩) :: rest
    else (k, a) :: addTypeEntry rest t s w

/-- `DatabaseManager._analyze_assessment_type_performance` (database.py). -/
def analyzeTypePerformance (rows : List StudentRow) : List (String × TypePerf) :=
  let acc := rows.foldl
    (fun l r => addTypeEntry l (classifyAssessmentType r.name r.description) r.score r.weight) []
  acc.map (fun p =>
    (p.1, { scores := p.2.scores
            total_weight := p.2.total_weight
            average := p.2.scores.sum / (p.2.scores.length : ℚ)
            count := p.2.scores.length }))

/-- `DatabaseManager._analyze_student_patterns` (database.py), parameterised by
the graded rows fetched for the enrollment.  The weighted-average division
raises `ZeroDivisionError` when the weights sum to zero. -/
noncomputable def analyzeStudentPatterns (rows : List StudentRow) :
    Except PyErr StudentAnalysis :=
  if rows.length < 2 then .ok .insufficientData
  else
    let scores := rows.map (fun r => r.score)
    let weights := rows.map (fun r => r.weight)
    match pyDivQ (List.zipWith (fun s w => s * w) scores weights).sum weights.sum with
    | .error e => .error e
    | .ok wavg =>
      .ok (.patterns
        { trend_slope := calculateTrendSlope scores
          consistency_score := calculateConsistencyScore scores
          average_performance := scores.sum / (scores.length : ℚ)
          weighted_average := wavg
          type_performance := analyzeTypePerformance rows
          improvement_pattern := analyzeImprovementPattern scores
          total_assessments := scores.length
          perf_min := listMin scores
          perf_max := listMax scores
          recent_performance :=
            if 3 ≤ scores.length then scores.drop (scores.length - 3) else scores })

/-- `DatabaseManager._analyze_assessment_difficulty` (database.py).
Subscripting a missing assessment row raises `TypeError`. -/
noncomputable def analyzeAssessmentDifficulty (ainfo : Option AssessmentInfo)
    (classScores : List ℚ) : Except PyErr DifficultyAnalysis :=
  match ainfo with
  | none => .error .typeError
  | some i =>
    if classScores.isEmpty then
      .ok { estimated_difficulty := some (estimateDifficultyFromWeight i.weight)
            class_average := none
            class_std_dev := none
            difficulty := none
            assessment_type := classifyAssessmentType i.name i.description
            weight := i.weight
            score_distribution := none
            has_class_data := false }
    else
      let avg := classScores.sum / (classScores.length : ℚ)
      let sd : ℝ := Real.sqrt
        (((classScores.map (fun x => (x - avg) ^ 2)).sum / (classScores.length : ℚ) : ℚ) : ℝ)
      let diff :=
        if 85 ≤ avg then "easy"
        else if 75 ≤ avg then "moderate"
        else if 65 ≤ avg then "hard"
        else "very_hard"
      .ok { estimated_difficulty := none
            class_average := some avg
            class_std_dev := some sd
            difficulty := some diff
            assessment_type := classifyAssessmentType i.name i.description
            weight := i.weight
            score_distribution := some classScores
            has_class_data := true }

/-- Insertion-ordered grouping of class scores by enrollment id
(`student_patterns` dict in `_analyze_class_patterns`). -/
def addGroup : List (ℕ × List ℚ) → ℕ → ℚ → List (ℕ × List ℚ)
  | [], e, s => [(e, [s])]
  | (k, g) :: rest, e, s =>
    if k = e then (k, g ++ [s]) :: rest
    else (k, g) :: addGroup rest e s

/-- First-half average in `_analyze_class_performance_patterns`. -/
def earlyAvg (g : List ℚ) : ℚ := (g.take (g.length / 2)).sum / ((g.length / 2 : ℕ) : ℚ)

/-- Second-half average in `_analyze_class_performance_patterns`. -/
def lateAvg (g : List ℚ) : ℚ :=
  (g.drop (g.length / 2)).sum / ((g.length - g.length / 2 : ℕ) : ℚ)

/-- `DatabaseManager._analyze_class_performance_patterns` (database.py). -/
def analyzeClassPerformancePatterns (groups : List (List ℚ)) : ClassPerfPatterns :=
  if groups.isEmpty then .noData
  else
    let avgs := (groups.filter (fun g => decide (2 ≤ g.length))).map listMean
    let improving := groups.countP
      (fun g => decide (3 ≤ g.length) && decide (earlyAvg g + 3 < lateAvg g))
    let declining := groups.countP
      (fun g => decide (3 ≤ g.length) && decide (lateAvg g < earlyAvg g - 3))
    .stats (if avgs.isEmpty then 0 else listMean avgs) improving declining
      (groups.length - improving - declining)

/-- `DatabaseManager._analyze_class_patterns` (database.py).  Subscripting a
missing class row raises `TypeError`. -/
def analyzeClassPatterns (classInfo : Option ℕ) (rows : List ClassRow) :
    Except PyErr ClassPatterns :=
  match classInfo with
  | none => .error .typeError
  | some _ =>
    let groups := rows.foldl (fun l r => addGroup l r.enrollId r.score) []
    let allScores := rows.map (fun r => r.score)
    .ok { class_average :=
            if allScores.isEmpty then 0 else allScores.sum / (allScores.length : ℚ)
          student_count := groups.length
          total_grades := allScores.length
          performance_patterns := analyzeClassPerformancePatterns (groups.map (fun p => p.2)) }

/-- `max(0, min(100, x))`, the clamp used throughout the prediction code. -/
def clamp100 (x : ℚ) : ℚ := max 0 (min 100 x)

/-- `DatabaseManager._trend_based_prediction` (database.py). -/
def trendBasedPrediction (p : StudentPatterns) : ℚ :=
  let base := p.weighted_average
  let adj := p.trend_slope * 1
  let factor := min |adj| 10
  clamp100 (if 0 < adj then base + factor else base + adj)

/-- `DatabaseManager._type_correlation_prediction` (database.py). -/
def typeCorrelationPrediction (p : StudentPatterns) (aa : DifficultyAnalysis) : ℚ :=
  match List.lookup aa.assessment_type p.type_performance with
  | some tp => tp.average
  | none => p.weighted_average * 0.95

/-- `DatabaseManager._difficulty_adjusted_prediction` (database.py). -/
def difficultyAdjustedPrediction (p : StudentPatterns) (aa : DifficultyAnalysis) : ℚ :=
  let base := p.weighted_average
  if aa.has_class_data = false then base
  else
    let ca := aa.class_average.getD 0
    let df := (ca - 78) / 78
    let ss := (base - 75) / 25
    clamp100 (base + df * ss * 5)

/-- `DatabaseManager._class_comparative_prediction` (database.py). -/
def classComparativePrediction (p : StudentPatterns) (aa : DifficultyAnalysis)
    (cp : ClassPatterns) : ℚ :=
  if aa.has_class_data = false then p.weighted_average
  else
    let rel := if 0 < cp.class_average then p.weighted_average / cp.class_average else 1
    clamp100 (aa.class_average.getD 0 * rel)

/-- One simulated rank entry of `_calculate_individual_assessment_ranks`. -/
structure SimRank where
  idx : ℕ
  score : ℚ
  rank : ℕ
  total : ℕ
deriving DecidableEq

/-- `DatabaseManager._calculate_individual_assessment_ranks` (database.py):
simulated per-assessment ranks from score bands over the recent scores. -/
def calculateIndividualAssessmentRanks (p : StudentPatterns) : List SimRank :=
  p.recent_performance.enum.map (fun q =>
    let i := q.1
    let s := q.2
    let r :=
      if 90 ≤ s then 1 + i % 3
      else if 80 ≤ s then 3 + i % 5
      else if 70 ≤ s then 8 + i % 8
      else if 60 ≤ s then 15 + i % 7
      else 20 + i % 5
    ⟨i, s, r, 25⟩)

/-- Insertion step of an ascending insertion sort. -/
def insertAsc (x : ℚ) : List ℚ → List ℚ
  | [] => [x]
  | h :: t => if x ≤ h then x :: h :: t else h :: insertAsc x t

/-- Python's `sorted(l)`. -/
def sortAsc (l : List ℚ) : List ℚ := l.foldr insertAsc []

/-- Insertion step of a descending insertion sort. -/
def insertDesc (x : ℚ) : List ℚ → List ℚ
  | [] => [x]
  | h :: t => if h ≤ x then x :: h :: t else h :: insertDesc x t

/-- Python's `sorted(l, reverse=True)`. -/
def sortDesc (l : List ℚ) : List ℚ := l.foldr insertDesc []

/-- The rank-statistics dictionary of `_analyze_ranking_patterns`. -/
structure RankAnalysis where
  average_rank : ℚ
  median_rank : ℚ
  best_rank : ℚ
  worst_rank : ℚ
  rank_trend : ℚ
  rank_consistency : ℝ
  rank_range : ℚ
  total_assessments : ℕ

/-- `DatabaseManager._analyze_ranking_patterns` (database.py). -/
noncomputable def analyzeRankingPatterns (individualRanks : List SimRank) : RankAnalysis :=
  let ranks : List ℚ := individualRanks.map (fun r => (r.rank : ℚ))
  let avg := ranks.sum / (ranks.length : ℚ)
  let sd : ℝ := Real.sqrt
    (((ranks.map (fun r => (r - avg) ^ 2)).sum / (ranks.length : ℚ) : ℚ) : ℝ)
  { average_rank := avg
    median_rank := (sortAsc ranks).getD (ranks.length / 2) 0
    best_rank := listMin ranks
    worst_rank := listMax ranks
    rank_trend := if 2 ≤ ranks.length then calculateTrendSlope ranks else 0
    rank_consistency := if 0 < avg then max 0 (1 - sd / (avg : ℝ)) else 0
    rank_range := listMax ranks - listMin ranks
    total_assessments := ranks.length }

/-- `DatabaseManager._predict_assessment_rank` (database.py). -/
def predictAssessmentRank (ra : RankAnalysis) (aa : DifficultyAnalysis) : ℤ :=
  let pr : ℚ := ra.median_rank + -ra.rank_trend * 2
  let pr := pr +
    (if aa.has_class_data then
      (if aa.difficulty.getD "moderate" = "very_hard" then 2
       else if aa.difficulty.getD "moderate" = "easy" then -1 else 0)
     else 0)
  max 1 (min 25 (pyRoundInt pr))

/-- `DatabaseManager._convert_rank_to_score` (database.py). -/
def convertRankToScore (predictedRank : ℤ) (aa : DifficultyAnalysis) : ℚ :=
  let classScores := aa.score_distribution.getD []
  if aa.has_class_data = false ∨ classScores.length ≤ 1 ∨
      listMax classScores - listMin classScores < 10 then
    let percentile : ℚ := (25 - (predictedRank : ℚ) + 1) / 25
    if 0.9 ≤ percentile then 90 + (percentile - 0.9) * 100
    else if 0.7 ≤ percentile then 80 + (percentile - 0.7) * 50
    else if 0.5 ≤ percentile then 70 + (percentile - 0.5) * 50
    else if 0.3 ≤ percentile then 60 + (percentile - 0.3) * 50
    else 40 + percentile * 66.7
  else
    let sorted := sortDesc classScores
    if predictedRank ≤ (sorted.length : ℤ) then sorted.getD (predictedRank - 1).toNat 0
    else if 2 ≤ sorted.length then
      let lastScore := sorted.getD (sorted.length - 1) 0
      let secondLast := sorted.getD (sorted.length - 2) 0
      let declineRate := secondLast - lastScore
      let positionsBeyond : ℚ := (predictedRank : ℚ) - (sorted.length : ℚ)
      max 0 (lastScore - declineRate * positionsBeyond)
    else
      max 0 (sorted.getD 0 0 - ((predictedRank : ℚ) - 1) * 5)

/-- `DatabaseManager._rank_based_prediction` (database.py).  Its internal
`try` never fires in this model: every operation inside is total. -/
noncomputable def rankBasedPrediction (p : StudentPatterns) (aa : DifficultyAnalysis) : ℚ :=
  let individualRanks := calculateIndividualAssessmentRanks p
  if individualRanks.length < 2 then p.weighted_average
  else
    let ra := analyzeRankingPatterns individualRanks
    clamp100 (convertRankToScore (predictAssessmentRank ra aa) aa)

/-- `np.interp(w, [10, 50], [0.95, 1.05])` in
`_sklearn_polynomial_regression_value`. -/
def npInterpWeightFactor (w : ℚ) : ℚ :=
  if w ≤ 10 then 0.95
  else if 50 ≤ w then 1.05
  else 0.95 + (w - 10) * (1.05 - 0.95) / (50 - 10)

/-- `DatabaseManager._sklearn_linear_regression_value` (database.py).  The
scikit-learn fit is an external library call, modelled by the `fit` oracle:
`.ok v` is the fitted one-step-ahead value, `.error` a raised exception
(the source catches it and falls back to the plain average). -/
def sklearnLinearRegressionValue (p : StudentPatterns) (aa : DifficultyAnalysis)
    (fit : Except PyErr ℚ) : ℚ :=
  if p.recent_performance.length < 2 then p.average_performance
  else
    match fit with
    | .error _ => p.average_performance
    | .ok v =>
      let v :=
        if aa.has_class_data then
          (if aa.difficulty.getD "moderate" = "very_hard" then v * 0.9
           else if aa.difficulty.getD "moderate" = "easy" then v * 1.1 else v)
        else v
      clamp100 v

/-- `DatabaseManager._sklearn_polynomial_regression_value` (database.py), with
the scikit-learn fit modelled as an oracle as for the linear fit. -/
def sklearnPolynomialRegressionValue (p : StudentPatterns) (aa : DifficultyAnalysis)
    (fit : Except PyErr ℚ) : ℚ :=
  if p.recent_performance.length < 3 then p.average_performance
  else
    match fit with
    | .error _ => p.average_performance
    | .ok v => clamp100 (v * npInterpWeightFactor aa.weight)

/-- The dictionary returned by `_calculate_ml_predictions` and the
single-algorithm mode helpers. -/
structure Prediction where
  final_prediction : ℚ
  confidence : ℝ
  range_min : ℝ
  range_max : ℝ
  factors : List String
  algorithms : List (String × ℚ)

/-- `DatabaseManager._generate_insufficient_data_prediction` (database.py). -/
def generateInsufficientDataPrediction (aa : DifficultyAnalysis) : Prediction :=
  if aa.has_class_data then
    let pred := aa.class_average.getD 0
    { final_prediction := pred
      confidence := 0.4
      range_min := ((max 0 (pred - 15) : ℚ) : ℝ)
      range_max := ((min 100 (pred + 10) : ℚ) : ℝ)
      factors := ["Insufficient historical data", "Using class/weight-based estimation"]
      algorithms := [("insufficient_data_fallback", pred)] }
  else
    let pred : ℚ := if 30 ≤ aa.weight then 72 else if 20 ≤ aa.weight then 78 else 82
    { final_prediction := pred
      confidence := 0.2
      range_min := ((max 0 (pred - 15) : ℚ) : ℝ)
      range_max := ((min 100 (pred + 10) : ℚ) : ℝ)
      factors := ["Insufficient historical data", "Using class/weight-based estimation"]
      algorithms := [("insufficient_data_fallback", pred)] }

/-- The fixed ensemble weights of `_calculate_ml_predictions`, in dictionary
insertion order: linear regression, polynomial regression, trend, type
correlation, difficulty, comparative, rank-based. -/
def ensembleWeights : List ℚ := [0.15, 0.15, 0.15, 0.15, 0.15, 0.1, 0.15]

/-- The weighted-sum-and-clamp combination step of `_calculate_ml_predictions`
(ensemble mode). -/
def ensembleCombine (lin poly trend ty diff comp rank : ℚ) : ℚ :=
  max 0 (min 100 (lin * 0.15 + poly * 0.15 + trend * 0.15 + ty * 0.15 +
    diff * 0.15 + comp * 0.1 + rank * 0.15))

/-- `DatabaseManager._calculate_prediction_confidence` (database.py). -/
noncomputable def calculatePredictionConfidence (preds : List ℚ) (p : StudentPatterns)
    (aa : DifficultyAnalysis) : ℝ :=
  let dataQuality : ℚ := min 1 ((p.total_assessments : ℚ) / 5)
  let agreement : ℝ :=
    if 1 < preds.length then
      let m := preds.sum / (preds.length : ℚ)
      let sd : ℝ := Real.sqrt
        (((preds.map (fun q => (q - m) ^ 2)).sum / (preds.length : ℚ) : ℚ) : ℝ)
      max 0 (1 - sd / 20)
    else 0.5
  let bonus : ℝ := if aa.has_class_data then 0.1 else 0
  min 1 ((dataQuality : ℝ) * 0.4 + p.consistency_score * 0.3 + agreement * 0.3 + bonus)

/-- `DatabaseManager._calculate_prediction_range` (database.py). -/
noncomputable def calculatePredictionRange (pred : ℚ) (conf : ℝ)
    (p : StudentPatterns) : ℝ × ℝ :=
  let baseRange : ℝ := (1 - conf) * 20
  let historicalRange : ℚ := p.perf_max - p.perf_min
  let variabilityFactor : ℚ := min (historicalRange / 50) 1
  let adjusted : ℝ := baseRange * (1 + (variabilityFactor : ℝ))
  (max 0 ((pred : ℝ) - adjusted / 2), min 100 ((pred : ℝ) + adjusted / 2))

/-- `DatabaseManager._identify_contributing_factors` (database.py). -/
noncomputable def identifyContributingFactors (p : StudentPatterns)
    (aa : DifficultyAnalysis) : List String :=
  (if 2 < |p.trend_slope| then
    (if 0 < p.trend_slope then ["Student shows improving trend in recent assessments"]
     else ["Student shows declining trend in recent assessments"])
   else []) ++
  (if (0.8 : ℝ) < p.consistency_score then ["Student has very consistent performance"]
   else if p.consistency_score < (0.5 : ℝ) then
     ["Student has variable performance - prediction less certain"]
   else []) ++
  (if aa.has_class_data then
    (if aa.difficulty.getD "moderate" = "very_hard" then
       ["This assessment is historically very challenging"]
     else if aa.difficulty.getD "moderate" = "easy" then
       ["This assessment is typically easier than average"]
     else [])
   else []) ++
  (if 90 ≤ p.weighted_average then ["Student is a high performer"]
   else if p.weighted_average ≤ 65 then ["Student is struggling - may need additional support"]
   else [])

/-- `DatabaseManager._rank_only_prediction` (database.py). -/
noncomputable def rankOnlyPrediction (p : StudentPatterns) (aa : DifficultyAnalysis) : Prediction :=
  let pred := rankBasedPrediction p aa
  { final_prediction := pyRoundTo 1 pred
    confidence := 0.7
    range_min := ((max 0 (pred - 15) : ℚ) : ℝ)
    range_max := ((min 100 (pred + 15) : ℚ) : ℝ)
    factors := ["HSC-style rank-based prediction using individual assessment rankings"]
    algorithms := [("rank_based", pyRoundTo 1 pred)] }

/-- `DatabaseManager._trend_only_prediction` (database.py). -/
def trendOnlyPrediction (p : StudentPatterns) : Prediction :=
  let pred := trendBasedPrediction p
  { final_prediction := pyRoundTo 1 pred
    confidence := 0.6
    range_min := ((max 0 (pred - 10) : ℚ) : ℝ)
    range_max := ((min 100 (pred + 10) : ℚ) : ℝ)
    factors := ["Linear trend analysis of student performance over time"]
    algorithms := [("trend_based", pyRoundTo 1 pred)] }

/-- `DatabaseManager._difficulty_only_prediction` (database.py). -/
def difficultyOnlyPrediction (p : StudentPatterns) (aa : DifficultyAnalysis) : Prediction :=
  let pred := difficultyAdjustedPrediction p aa
  { final_prediction := pyRoundTo 1 pred
    confidence := 0.65
    range_min := ((max 0 (pred - 12) : ℚ) : ℝ)
    range_max := ((min 100 (pred + 12) : ℚ) : ℝ)
    factors := ["Assessment difficulty adjustment based on class performance"]
    algorithms := [("difficulty_adjusted", pyRoundTo 1 pred)] }

/-- `DatabaseManager._type_only_prediction` (database.py). -/
def typeOnlyPrediction (p : StudentPatterns) (aa : DifficultyAnalysis) : Prediction :=
  let pred := typeCorrelationPrediction p aa
  { final_prediction := pyRoundTo 1 pred
    confidence := 0.6
    range_min := ((max 0 (pred - 12) : ℚ) : ℝ)
    range_max := ((min 100 (pred + 12) : ℚ) : ℝ)
    factors := ["Performance correlation with similar assessment types"]
    algorithms := [("type_correlation", pyRoundTo 1 pred)] }

/-- `DatabaseManager._comparative_only_prediction` (database.py). -/
def comparativeOnlyPrediction (p : StudentPatterns) (aa : DifficultyAnalysis)
    (cp : ClassPatterns) : Prediction :=
  let pred := classComparativePrediction p aa cp
  { final_prediction := pyRoundTo 1 pred
    confidence := 0.55
    range_min := ((max 0 (pred - 15) : ℚ) : ℝ)
    range_max := ((min 100 (pred + 15) : ℚ) : ℝ)
    factors := ["Relative performance comparison with class average"]
    algorithms := [("class_comparative", pyRoundTo 1 pred)] }

/-- `DatabaseManager._single_algorithm_predictions` (database.py): the five
non-regression components, with their median as final value. -/
noncomputable def singleAlgorithmPredictions (p : StudentPatterns)
    (aa : DifficultyAnalysis) (cp : ClassPatterns) : Prediction :=
  let tr := trendBasedPrediction p
  let ty := typeCorrelationPrediction p aa
  let df := difficultyAdjustedPrediction p aa
  let cmpv := classComparativePrediction p aa cp
  let rk := rankBasedPrediction p aa
  let vals := [tr, ty, df, cmpv, rk]
  let final := (sortAsc vals).getD (vals.length / 2) 0
  { final_prediction := pyRoundTo 1 final
    confidence := 0.65
    range_min := ((pyRoundTo 1 (listMin vals) : ℚ) : ℝ)
    range_max := ((pyRoundTo 1 (listMax vals) : ℚ) : ℝ)
    factors := ["Individual algorithm comparison mode - showing all algorithms separately"]
    algorithms := [("trend_based", pyRoundTo 1 tr), ("type_correlation", pyRoundTo 1 ty),
      ("difficulty_adjusted", pyRoundTo 1 df), ("class_comparative", pyRoundTo 1 cmpv),
      ("rank_based", pyRoundTo 1 rk)] }

/-- `DatabaseManager._sklearn_linear_regression` (database.py), the
single-mode wrapper. -/
def sklearnLinearRegressionPrediction (p : StudentPatterns) (aa : DifficultyAnalysis)
    (fit : Except PyErr ℚ) : Prediction :=
  let pred := sklearnLinearRegressionValue p aa fit
  { final_prediction := pyRoundTo 1 pred
    confidence := 0.65
    range_min := ((max 0 (pred - 12) : ℚ) : ℝ)
    range_max := ((min 100 (pred + 12) : ℚ) : ℝ)
    factors := ["Scikit-learn Linear Regression based on historical grade progression"]
    algorithms := [("sklearn_linear_regression", pyRoundTo 1 pred)] }

/-- `DatabaseManager._sklearn_polynomial_regression` (database.py), the
single-mode wrapper. -/
def sklearnPolynomialRegressionPrediction (p : StudentPatterns) (aa : DifficultyAnalysis)
    (fit : Except PyErr ℚ) : Prediction :=
  let pred := sklearnPolynomialRegressionValue p aa fit
  { final_prediction := pyRoundTo 1 pred
    confidence := 0.7
    range_min := ((max 0 (pred - 10) : ℚ) : ℝ)
    range_max := ((min 100 (pred + 10) : ℚ) : ℝ)
    factors := ["Scikit-learn Polynomial Regression capturing non-linear performance patterns"]
    algorithms := [("sklearn_polynomial_regression", pyRoundTo 1 pred)] }

/-- `DatabaseManager._calculate_ml_predictions` (database.py): the
insufficient-data short-circuit, the mode dispatch, and the default weighted
ensemble of the seven components. -/
noncomputable def calculateMlPredictions (sa : StudentAnalysis) (aa : DifficultyAnalysis)
    (cp : ClassPatterns) (mode : String) (linFit polyFit : Except PyErr ℚ) : Prediction :=
  match sa with
  | .insufficientData => generateInsufficientDataPrediction aa
  | .patterns p =>
    if mode = "linear_regression" then sklearnLinearRegressionPrediction p aa linFit
    else if mode = "polynomial_regression" then sklearnPolynomialRegressionPrediction p aa polyFit
    else if mode = "single" then singleAlgorithmPredictions p aa cp
    else if mode = "rank_only" then rankOnlyPrediction p aa
    else if mode = "trend_only" then trendOnlyPrediction p
    else if mode = "difficulty_only" then difficultyOnlyPrediction p aa
    else if mode = "type_only" then typeOnlyPrediction p aa
    else if mode = "comparative_only" then comparativeOnlyPrediction p aa cp
    else
      let lin := sklearnLinearRegressionValue p aa linFit
      let poly := sklearnPolynomialRegressionValue p aa polyFit
      let tr := trendBasedPrediction p
      let ty := typeCorrelationPrediction p aa
      let df := difficultyAdjustedPrediction p aa
      let cmpv := classComparativePrediction p aa cp
      let rk := rankBasedPrediction p aa
      let final := ensembleCombine lin poly tr ty df cmpv rk
      let conf := calculatePredictionConfidence [lin, poly, tr, ty, df, cmpv, rk] p aa
      let range := calculatePredictionRange final conf p
      { final_prediction := pyRoundTo 1 final
        confidence := pyRound2R conf
        range_min := range.1
        range_max := range.2
        factors := identifyContributingFactors p aa
        algorithms := [("linear_regression", pyRoundTo 1 lin),
          ("polynomial_regression", pyRoundTo 1 poly), ("trend_based", pyRoundTo 1 tr),
          ("type_correlation", pyRoundTo 1 ty), ("difficulty_adjusted", pyRoundTo 1 df),
          ("class_comparative", pyRoundTo 1 cmpv), ("rank_based", pyRoundTo 1 rk)] }

/-- The data `predict_missing_assessment_score` reads from the storage layer
and from the scikit-learn fits, each modelled as an `Except`-valued input
(`.error` = the external call raised). -/
structure PredictInputs where
  studentRows : Except PyErr (List StudentRow)
  assessmentInfo : Except PyErr (Option AssessmentInfo)
  peerScores : Except PyErr (List ℚ)
  classInfo : Except PyErr (Option ℕ)
  classRows : Except PyErr (List ClassRow)
  linFit : Except PyErr ℚ
  polyFit : Except PyErr ℚ
  fallbackRows : Except PyErr (List GradeRow)

/-- The body of the `try` block of `predict_missing_assessment_score`:
the three analyzers followed by `_calculate_ml_predictions`. -/
noncomputable def runPredictionEnsemble (inp : PredictInputs) (mode : String) :
    Except PyErr Prediction := do
  let rows ← inp.studentRows
  let sa ← analyzeStudentPatterns rows
  let ainfo ← inp.assessmentInfo
  let peers ← inp.peerScores
  let aa ← analyzeAssessmentDifficulty ainfo peers
  let cinfo ← inp.classInfo
  let crows ← inp.classRows
  let cp ← analyzeClassPatterns cinfo crows
  .ok (calculateMlPredictions sa aa cp mode inp.linFit inp.polyFit)

/-- The dictionary returned by `predict_missing_assessment_score`. -/
structure PredictionResult where
  predicted_score : ℚ
  confidence : ℝ
  range_min : ℝ
  range_max : ℝ
  contributing_factors : List String
  algorithm_breakdown : List (String × ℚ)

/-- The key renaming done at the successful return of
`predict_missing_assessment_score`. -/
def resultOfPrediction (p : Prediction) : PredictionResult :=
  { predicted_score := p.final_prediction
    confidence := p.confidence
    range_min := p.range_min
    range_max := p.range_max
    contributing_factors := p.factors
    algorithm_breakdown := p.algorithms }

/-- `DatabaseManager._fallback_prediction` (database.py): the flat fallback,
whose own grade fetch may itself fail (inner `try`/`except`). -/
def fallbackPrediction (rowsE : Except PyErr (List GradeRow)) : PredictionResult :=
  match rowsE with
  | .ok rows =>
    let prediction := (calculateStudentGrade rows).predicted
    { predicted_score := prediction
      confidence := 0.3
      range_min := ((max 0 (prediction - 15) : ℚ) : ℝ)
      range_max := ((min 100 (prediction + 15) : ℚ) : ℝ)
      contributing_factors := ["Using simple average fallback"]
      algorithm_breakdown := [("fallback", prediction)] }
  | .error _ =>
    { predicted_score := 75
      confidence := 0.1
      range_min := 60
      range_max := 90
      contributing_factors := ["No data available - using default estimate"]
      algorithm_breakdown := [("default", 75)] }

/-- `DatabaseManager.predict_missing_assessment_score` (database.py): the
public prediction operation with its catch-all `except` around the whole
ensemble. -/
noncomputable def predictMissingAssessmentScore (inp : PredictInputs) (mode : String) :
    PredictionResult :=
  match runPredictionEnsemble inp mode with
  | .ok p => resultOfPrediction p
  | .error _ => fallbackPrediction inp.fallbackRows

/-- Wellformedness of stored rows: assessment weights are non-negative
(enforced by the SQL CHECK constraint on `assessments.weight`). -/
def WeightsNonneg (rows : List GradeRow) : Prop :=
  ∀ r ∈ rows, ∀ w, r.weight = some w → 0 ≤ w

/-- Wellformedness of stored rows: recorded scores lie in [0, 100]
(enforced by the SQL CHECK constraint on `student_grades.score`). -/
def ScoresValid (rows : List GradeRow) : Prop :=
  ∀ r ∈ rows, ∀ x, r.score = some x → 0 ≤ x ∧ x ≤ 100

/-- The enrollment of the spec scenario: grades
`[(weight=50, score=80), (weight=50, score=None)]`. -/
def scenarioDemoRows : List GradeRow := [⟨some 50, some 80⟩, ⟨some 50, none⟩]

/-- A class whose five enrollments have predicted grades 95, 85, 75, 65, 55. -/
def statsDemoClass : List (List GradeRow) :=
  [[⟨some 100, some 95⟩], [⟨some 100, some 85⟩], [⟨some 100, some 75⟩],
   [⟨some 100, some 65⟩], [⟨some 100, some 55⟩]]

/-! ## Lemmas about Python rounding -/

theorem pyRoundInt_cases (q : ℚ) : pyRoundInt q = ⌊q⌋ ∨ pyRoundInt q = ⌊q⌋ + 1 := by
  unfold pyRoundInt
  split_ifs <;> simp

theorem floor_le_pyRoundInt (q : ℚ) : ⌊q⌋ ≤ pyRoundInt q := by
  rcases pyRoundInt_cases q with h | h <;> omega

theorem le_pyRoundInt (n : ℤ) (q : ℚ) (h : (n : ℚ) ≤ q) : n ≤ pyRoundInt q := by
  have h1 : n ≤ ⌊q⌋ := Int.le_floor.mpr h
  have h2 := floor_le_pyRoundInt q
  omega

theorem pyRoundInt_le (n : ℤ) (q : ℚ) (h : q ≤ (n : ℚ)) : pyRoundInt q ≤ n := by
  have hfl : ⌊q⌋ ≤ n := by
    have h1 := Int.floor_le_floor h
    simpa using h1
  have hkey : ¬ q - ⌊q⌋ < 1 / 2 → ⌊q⌋ + 1 ≤ n := by
    intro hf
    push_neg at hf
    rcases lt_or_eq_of_le hfl with hlt | heq
    · omega
    · exfalso
      have hq : q ≤ (⌊q⌋ : ℚ) := by rw [heq]; exact h
      linarith
  unfold pyRoundInt
  split_ifs with h1 h2 h3
  · exact hfl
  · exact hkey h1
  · exact hfl
  · exact hkey h1

theorem pyRoundInt_eq_floor_of_lt {q : ℚ} (h : q - ⌊q⌋ < 1 / 2) : pyRoundInt q = ⌊q⌋ := by
  unfold pyRoundInt
  rw [if_pos h]

theorem pyRoundInt_eq_succ_of_gt {q : ℚ} (h : 1 / 2 < q - ⌊q⌋) : pyRoundInt q = ⌊q⌋ + 1 := by
  unfold pyRoundInt
  rw [if_neg (by linarith), if_pos h]

theorem pyRoundInt_mono {x y : ℚ} (h : x ≤ y) : pyRoundInt x ≤ pyRoundInt y := by
  rcases lt_or_eq_of_le (Int.floor_le_floor h) with hf | hf
  · have h1 : pyRoundInt x ≤ ⌊x⌋ + 1 := by
      rcases pyRoundInt_cases x with h' | h' <;> omega
    have h2 := floor_le_pyRoundInt y
    omega
  · have hcast : ((⌊x⌋ : ℚ)) = ((⌊y⌋ : ℚ)) := by exact_mod_cast hf
    by_cases c1 : x - ⌊x⌋ < 1 / 2
    · rw [pyRoundInt_eq_floor_of_lt c1, hf]
      exact floor_le_pyRoundInt y
    · push_neg at c1
      by_cases c2 : 1 / 2 < y - ⌊y⌋
      · rw [pyRoundInt_eq_succ_of_gt c2]
        have h1 : pyRoundInt x ≤ ⌊x⌋ + 1 := by
          rcases pyRoundInt_cases x with h' | h' <;> omega
        omega
      · push_neg at c2
        have hxy : x = y := by
          have hfx : x - ⌊x⌋ ≤ y - ⌊y⌋ := by rw [← hcast]; linarith
          have e1 : x - ⌊x⌋ = 1 / 2 := le_antisymm (by linarith) c1
          have e2 : y - ⌊y⌋ = 1 / 2 := le_antisymm c2 (by linarith)
          linarith [hcast]
        rw [hxy]

theorem le_pyRoundTo (n : ℤ) (d : ℕ) (q : ℚ) (h : (n : ℚ) ≤ q) :
    (n : ℚ) ≤ pyRoundTo d q := by
  unfold pyRoundTo
  rw [le_div_iff₀ (by positivity)]
  have h2 : n * 10 ^ d ≤ pyRoundInt (q * 10 ^ d) := by
    apply le_pyRoundInt
    push_cast
    exact mul_le_mul_of_nonneg_right h (by positivity)
  calc (n : ℚ) * 10 ^ d = ((n * 10 ^ d : ℤ) : ℚ) := by push_cast; ring
    _ ≤ (pyRoundInt (q * 10 ^ d) : ℚ) := by exact_mod_cast h2

theorem pyRoundTo_le (n : ℤ) (d : ℕ) (q : ℚ) (h : q ≤ (n : ℚ)) :
    pyRoundTo d q ≤ (n : ℚ) := by
  unfold pyRoundTo
  rw [div_le_iff₀ (by positivity)]
  have h2 : pyRoundInt (q * 10 ^ d) ≤ n * 10 ^ d := by
    apply pyRoundInt_le
    push_cast
    exact mul_le_mul_of_nonneg_right h (by positivity)
  calc (pyRoundInt (q * 10 ^ d) : ℚ) ≤ ((n * 10 ^ d : ℤ) : ℚ) := by exact_mod_cast h2
    _ = (n : ℚ) * 10 ^ d := by push_cast; ring

theorem pyRoundTo_mono (d : ℕ) {x y : ℚ} (h : x ≤ y) : pyRoundTo d x ≤ pyRoundTo d y := by
  unfold pyRoundTo
  have h1 := pyRoundInt_mono (mul_le_mul_of_nonneg_right h (by positivity : (0:ℚ) ≤ 10 ^ d))
  have hc : ((pyRoundInt (x * 10 ^ d) : ℚ)) ≤ (pyRoundInt (y * 10 ^ d) : ℚ) := by
    exact_mod_cast h1
  gcongr

theorem pyRoundTo_zero (d : ℕ) : pyRoundTo d 0 = 0 := by
  have h1 : pyRoundInt 0 = 0 := by
    unfold pyRoundInt
    norm_num
  unfold pyRoundTo
  rw [show (0 : ℚ) * 10 ^ d = 0 by ring, h1]
  norm_num

/-! ## Lemmas about the grade aggregator -/

theorem gradeFold_cw_bounds (rows : List GradeRow) (hw : WeightsNonneg rows) :
    0 ≤ (gradeFold rows).2.2 ∧ (gradeFold rows).2.2 ≤ (gradeFold rows).1 := by
  induction rows with
  | nil => simp [gradeFold]
  | cons r rest ih =>
    have hw' : WeightsNonneg rest := fun x hx => hw x (List.mem_cons_of_mem _ hx)
    have hr := hw r (List.mem_cons_self _ _)
    obtain ⟨h1, h2⟩ := ih hw'
    cases hwt : r.weight with
    | none => simpa [gradeFold, hwt] using ⟨h1, h2⟩
    | some w =>
      have hw0 : 0 ≤ w := hr w hwt
      cases hsc : r.score with
      | none =>
        simp only [gradeFold, hwt, hsc]
        constructor <;> [linarith; linarith]
      | some x =>
        simp only [gradeFold, hwt, hsc]
        constructor <;> [linarith; linarith]

theorem gradeFold_ws_bounds (rows : List GradeRow) (hw : WeightsNonneg rows)
    (hs : ScoresValid rows) :
    0 ≤ (gradeFold rows).2.1 ∧ (gradeFold rows).2.1 ≤ (gradeFold rows).2.2 := by
  induction rows with
  | nil => simp [gradeFold]
  | cons r rest ih =>
    have hw' : WeightsNonneg rest := fun x hx => hw x (List.mem_cons_of_mem _ hx)
    have hs' : ScoresValid rest := fun x hx => hs x (List.mem_cons_of_mem _ hx)
    have hrw := hw r (List.mem_cons_self _ _)
    have hrs := hs r (List.mem_cons_self _ _)
    obtain ⟨h1, h2⟩ := ih hw' hs'
    cases hwt : r.weight with
    | none => simpa [gradeFold, hwt] using ⟨h1, h2⟩
    | some w =>
      have hw0 : 0 ≤ w := hrw w hwt
      cases hsc : r.score with
      | none =>
        simp only [gradeFold, hwt, hsc]
        exact ⟨h1, h2⟩
      | some x =>
        obtain ⟨hx0, hx100⟩ := hrs x hsc
        have hxw : x * w ≤ 100 * w := mul_le_mul_of_nonneg_right hx100 hw0
        have hxw0 : 0 ≤ x * w := mul_nonneg hx0 hw0
        simp only [gradeFold, hwt, hsc]
        constructor <;> [linarith; linarith]

/-! ## Lemmas about the scenario projector -/

theorem scenariosE_pos (cur : GradeSnapshot) (t : ℚ) (hrw : 0 < cur.remaining_weight)
    (htw : cur.total_weight ≠ 0) :
    predictGradeScenariosE cur t = .ok
      { best_case := (cur.weighted_score + cur.remaining_weight) / cur.total_weight * 100
        worst_case := cur.weighted_score / cur.total_weight * 100
        required_average := max 0 (min 100
          ((t / 100 * cur.total_weight - cur.weighted_score) / cur.remaining_weight * 100)) } := by
  simp [predictGradeScenariosE, hrw, pyDivQ, htw, hrw.ne', Bind.bind, Except.bind]

theorem scenariosE_zero (cur : GradeSnapshot) (t : ℚ) (hrw : ¬ 0 < cur.remaining_weight) :
    predictGradeScenariosE cur t = .ok ⟨cur.predicted, cur.predicted, cur.predicted⟩ := by
  simp [predictGradeScenariosE, hrw]

/-- C6: for every snapshot the aggregator produces from non-negative weights,
`remaining_weight > 0` implies `total_weight > 0`, the scenario projector never
raises `ZeroDivisionError`, and when `total_weight = 0` it falls back to the
no-remaining-weight branch returning `predicted` three times. -/
theorem c6_no_division_by_zero (rows : List GradeRow) (hw : WeightsNonneg rows) :
    (0 < (calculateStudentGrade rows).remaining_weight →
      0 < (calculateStudentGrade rows).total_weight)
    ∧ (∀ t, ∃ s, predictGradeScenariosE (calculateStudentGrade rows) t = .ok s)
    ∧ ((calculateStudentGrade rows).total_weight = 0 → ∀ t,
        predictGradeScenariosE (calculateStudentGrade rows) t =
          .ok ⟨(calculateStudentGrade rows).predicted, (calculateStudentGrade rows).predicted,
            (calculateStudentGrade rows).predicted⟩) := by
  obtain ⟨hcw0, hcwtw⟩ := gradeFold_cw_bounds rows hw
  have hrw_eq : (calculateStudentGrade rows).remaining_weight =
      max 0 ((gradeFold rows).1 - (gradeFold rows).2.2) := rfl
  have htw_eq : (calculateStudentGrade rows).total_weight = (gradeFold rows).1 := rfl
  have key : 0 < (calculateStudentGrade rows).remaining_weight →
      0 < (calculateStudentGrade rows).total_weight := by
    intro hpos
    rw [hrw_eq] at hpos
    rcases lt_max_iff.mp hpos with h | h
    · exact absurd h (lt_irrefl 0)
    · rw [htw_eq]; linarith
  refine ⟨key, ?_, ?_⟩
  · intro t
    by_cases hpos : 0 < (calculateStudentGrade rows).remaining_weight
    · exact ⟨_, scenariosE_pos _ t hpos (ne_of_gt (key hpos))⟩
    · exact ⟨_, scenariosE_zero _ t hpos⟩
  · intro htw0 t
    apply scenariosE_zero
    rw [hrw_eq]
    rw [htw_eq] at htw0
    rw [htw0]
    simp only [zero_sub, not_lt]
    exact max_le le_rfl (by linarith)

theorem scenarioDemoRows_weights : WeightsNonneg scenarioDemoRows := by
  intro r hr w hwq
  simp only [scenarioDemoRows, List.mem_cons, List.not_mem_nil, or_false] at hr
  rcases hr with rfl | rfl
  · have h : (50 : ℚ) = w := by simpa using hwq
    linarith
  · have h : (50 : ℚ) = w := by simpa using hwq
    linarith

theorem scenarioDemoRows_scores : ScoresValid scenarioDemoRows := by
  intro r hr x hx
  simp only [scenarioDemoRows, List.mem_cons, List.not_mem_nil, or_false] at hr
  rcases hr with rfl | rfl
  · have h : (80 : ℚ) = x := by simpa using hx
    exact ⟨by linarith, by linarith⟩
  · simp at hx

/-- Witness for C6 at a concrete enrollment. -/
theorem c6_no_division_by_zero_witness :
    WeightsNonneg scenarioDemoRows
    ∧ (∃ s, predictGradeScenariosE (calculateStudentGrade scenarioDemoRows) 70 = .ok s) :=
  ⟨scenarioDemoRows_weights,
   (c6_no_division_by_zero scenarioDemoRows scenarioDemoRows_weights).2.1 70⟩

/-- C4: for every snapshot the aggregator produces from scores in [0,100] and
non-negative weights, when `remaining_weight > 0` the projector's outputs
satisfy `worst_case ≤ predicted ≤ best_case`. -/
theorem c4_scenario_ordering (rows : List GradeRow) (t : ℚ)
    (hw : WeightsNonneg rows) (hs : ScoresValid rows)
    (hrw : 0 < (calculateStudentGrade rows).remaining_weight) :
    ∃ s, predictGradeScenariosE (calculateStudentGrade rows) t = .ok s ∧
      s.worst_case ≤ (calculateStudentGrade rows).predicted ∧
      (calculateStudentGrade rows).predicted ≤ s.best_case := by
  obtain ⟨hcw0, hcwtw⟩ := gradeFold_cw_bounds rows hw
  obtain ⟨hws0, hwscw⟩ := gradeFold_ws_bounds rows hw hs
  have hrw_eq : (calculateStudentGrade rows).remaining_weight =
      max 0 ((gradeFold rows).1 - (gradeFold rows).2.2) := rfl
  have htwpos : 0 < (gradeFold rows).1 := by
    rw [hrw_eq] at hrw
    rcases lt_max_iff.mp hrw with h | h
    · exact absurd h (lt_irrefl 0)
    · linarith
  have hrwval : (calculateStudentGrade rows).remaining_weight =
      (gradeFold rows).1 - (gradeFold rows).2.2 := by
    rw [hrw_eq]
    exact max_eq_right (by rw [hrw_eq] at hrw; rcases lt_max_iff.mp hrw with h | h
                           · exact absurd h (lt_irrefl 0)
                           · linarith)
  refine ⟨_, scenariosE_pos _ t hrw (ne_of_gt htwpos), ?_, ?_⟩
  · show (calculateStudentGrade rows).weighted_score / (calculateStudentGrade rows).total_weight
        * 100 ≤ (calculateStudentGrade rows).predicted
    show (gradeFold rows).2.1 / (gradeFold rows).1 * 100 ≤
      (if 0 < (gradeFold rows).2.2 then (gradeFold rows).2.1 / (gradeFold rows).2.2 * 100 else 0)
    by_cases hcw : 0 < (gradeFold rows).2.2
    · rw [if_pos hcw]
      rw [div_mul_eq_mul_div, div_mul_eq_mul_div, div_le_div_iff₀ htwpos hcw]
      have h1 : (gradeFold rows).2.1 * (gradeFold rows).2.2 ≤
          (gradeFold rows).2.1 * (gradeFold rows).1 :=
        mul_le_mul_of_nonneg_left hcwtw hws0
      nlinarith
    · rw [if_neg hcw]
      have hcweq : (gradeFold rows).2.2 = 0 := le_antisymm (not_lt.mp hcw) hcw0
      have hwseq : (gradeFold rows).2.1 = 0 := le_antisymm (hcweq ▸ hwscw) hws0
      rw [hwseq]
      simp
  · show (calculateStudentGrade rows).predicted ≤
      ((calculateStudentGrade rows).weighted_score +
        (calculateStudentGrade rows).remaining_weight) /
        (calculateStudentGrade rows).total_weight * 100
    rw [hrwval]
    show (if 0 < (gradeFold rows).2.2 then (gradeFold rows).2.1 / (gradeFold rows).2.2 * 100 else 0)
      ≤ ((gradeFold rows).2.1 + ((gradeFold rows).1 - (gradeFold rows).2.2)) /
        (gradeFold rows).1 * 100
    have htwcw : 0 ≤ (gradeFold rows).1 - (gradeFold rows).2.2 := by linarith
    by_cases hcw : 0 < (gradeFold rows).2.2
    · rw [if_pos hcw]
      rw [div_mul_eq_mul_div, div_mul_eq_mul_div, div_le_div_iff₀ hcw htwpos]
      have h2 : (gradeFold rows).2.1 * ((gradeFold rows).1 - (gradeFold rows).2.2) ≤
          (gradeFold rows).2.2 * ((gradeFold rows).1 - (gradeFold rows).2.2) :=
        mul_le_mul_of_nonneg_right hwscw htwcw
      nlinarith
    · rw [if_neg hcw]
      apply mul_nonneg _ (by norm_num)
      apply div_nonneg _ (le_of_lt htwpos)
      linarith

/-- Witness for C4 at a concrete enrollment. -/
theorem c4_scenario_ordering_witness :
    (0 < (calculateStudentGrade scenarioDemoRows).remaining_weight)
    ∧ (∃ s, predictGradeScenariosE (calculateStudentGrade scenarioDemoRows) 70 = .ok s ∧
        s.worst_case ≤ (calculateStudentGrade scenarioDemoRows).predicted ∧
        (calculateStudentGrade scenarioDemoRows).predicted ≤ s.best_case) := by
  constructor
  · norm_num [calculateStudentGrade, gradeFold, scenarioDemoRows]
  · exact c4_scenario_ordering scenarioDemoRows 70 scenarioDemoRows_weights
      scenarioDemoRows_scores
      (by norm_num [calculateStudentGrade, gradeFold, scenarioDemoRows])

/-- C5: the projector's formulas.  When `remaining_weight > 0` (and the
division is defined) the projector returns the best-case, worst-case and
clamped required-average formulas; when `remaining_weight = 0` all three
outputs equal `predicted`; and on the scenario enrollment
`[(weight=50, score=80), (weight=50, score=None)]` with target 70 it yields
`predicted = 80`, `completed_weight = 50`, `remaining_weight = 50` and
`required_average = 60`. -/
theorem c5_scenario_formulas :
    (∀ cur t, 0 < cur.remaining_weight → cur.total_weight ≠ 0 →
      predictGradeScenariosE cur t = .ok
        { best_case := (cur.weighted_score + cur.remaining_weight) / cur.total_weight * 100
          worst_case := cur.weighted_score / cur.total_weight * 100
          required_average := max 0 (min 100
            ((t / 100 * cur.total_weight - cur.weighted_score) /
              cur.remaining_weight * 100)) })
    ∧ (∀ cur t, cur.remaining_weight = 0 →
        predictGradeScenariosE cur t = .ok ⟨cur.predicted, cur.predicted, cur.predicted⟩)
    ∧ calculateStudentGrade scenarioDemoRows =
        { total_weight := 100, weighted_score := 40, completed_weight := 50,
          predicted := 80, remaining_weight := 50 }
    ∧ predictGradeScenariosE (calculateStudentGrade scenarioDemoRows) 70 = .ok ⟨90, 40, 60⟩ := by
  refine ⟨fun cur t h1 h2 => scenariosE_pos cur t h1 h2, fun cur t h => ?_, ?_, ?_⟩
  · exact scenariosE_zero cur t (by rw [h]; exact lt_irrefl 0)
  · norm_num [calculateStudentGrade, gradeFold, scenarioDemoRows]
  · norm_num [predictGradeScenariosE, calculateStudentGrade, gradeFold, scenarioDemoRows,
      pyDivQ, Bind.bind, Except.bind]

/-- Witness for C5: the formula branch applied at the scenario snapshot. -/
theorem c5_scenario_formulas_witness :
    predictGradeScenariosE ⟨100, 40, 50, 80, 50⟩ 70 = .ok
      { best_case := (40 + 50) / 100 * 100
        worst_case := 40 / 100 * 100
        required_average := max 0 (min 100 ((70 / 100 * 100 - 40) / 50 * 100)) } :=
  c5_scenario_formulas.1 ⟨100, 40, 50, 80, 50⟩ 70 (by norm_num) (by norm_num)

/-- C7: on a class with predicted grades 95, 85, 75, 65, 55 the statistics
engine returns one student in each letter bucket and a passing rate of 80.0
(four of the five grades are at least 60). -/
theorem c7_class_statistics_demo :
    (getClassStatistics statsDemoClass).grade_distribution = ⟨1, 1, 1, 1, 1⟩
    ∧ (getClassStatistics statsDemoClass).passing_rate = 80 := by
  constructor
  · norm_num [getClassStatistics, statsDemoClass, predictedGradesOf, calculateStudentGrade,
      gradeFold, gradeDistributionOf, bucketStep]
  · norm_num [getClassStatistics, statsDemoClass, predictedGradesOf, calculateStudentGrade,
      gradeFold, passingCount, List.countP, List.countP.go, pyRoundTo, pyRoundInt]

/-! ## Improvement pattern (C8) -/

/-- Counterexample to C8 as stated: on the chronologically ordered scores
`[90, 90, 84]` the code compares the first two and last two scores (mean 90
vs 87, delta -3) and returns `stable`, while the claimed first-third /
last-third comparison (90 vs 84, delta -6) yields `declining`. -/
theorem c8_counterexample_thirds :
    patternOf (analyzeImprovementPattern [90, 90, 84]) = "stable"
    ∧ improvementPatternThirdsSpec [90, 90, 84] = "declining"
    ∧ patternOf (analyzeImprovementPattern [90, 90, 84]) ≠
        improvementPatternThirdsSpec [90, 90, 84] := by
  refine ⟨?_, ?_, ?_⟩
  · norm_num [analyzeImprovementPattern, listMean, patternOf]
  · norm_num [improvementPatternThirdsSpec, listMean]
  · norm_num [analyzeImprovementPattern, improvementPatternThirdsSpec, listMean, patternOf]
    decide

/-- C8 (amended): `_analyze_improvement_pattern` returns `insufficient_data`
for fewer than 3 scores; otherwise it compares the mean of the first two with
the mean of the last two scores when `3 ≤ n < 6`, and the mean of the first
`⌊n/3⌋` with the mean of the last `⌈n/3⌉` scores when `n ≥ 6`, returning
`improving` when the delta exceeds 5, `declining` when it is below -5, and
`stable` otherwise. -/
theorem c8_improvement_pattern_amended (scores : List ℚ) :
    patternOf (analyzeImprovementPattern scores) = improvementPatternAmended scores := by
  unfold analyzeImprovementPattern improvementPatternAmended
  by_cases h3 : scores.length < 3
  · simp [h3, patternOf]
  · by_cases h6 : 6 ≤ scores.length
    · have h6' : ¬ scores.length < 6 := not_lt.mpr h6
      simp [h3, h6, h6', patternOf]
    · have h6' : scores.length < 6 := not_le.mp h6
      simp [h3, h6, h6', patternOf]

/-! ## Consistency score (C9) -/

theorem listMean_replicate (n : ℕ) (x : ℚ) (h : 1 ≤ n) :
    listMean (List.replicate n x) = x := by
  unfold listMean
  rw [List.sum_replicate, List.length_replicate, nsmul_eq_mul]
  exact mul_div_cancel_left₀ x (Nat.cast_ne_zero.mpr (by omega))

theorem listVariance_replicate (n : ℕ) (x : ℚ) (h : 1 ≤ n) :
    listVariance (List.replicate n x) = 0 := by
  unfold listVariance
  rw [listMean_replicate n x h, List.map_replicate]
  simp

/-- C9: the consistency score always lies in [0, 1], equals exactly 1 on every
non-empty constant score sequence, and for a fixed positive mean it is
monotonically non-increasing as the variance of the sequence increases. -/
theorem c9_consistency_properties :
    (∀ s : List ℚ, 0 ≤ calculateConsistencyScore s ∧ calculateConsistencyScore s ≤ 1)
    ∧ (∀ (n : ℕ) (x : ℚ), 1 ≤ n → calculateConsistencyScore (List.replicate n x) = 1)
    ∧ (∀ s u : List ℚ, 2 ≤ s.length → 2 ≤ u.length → listMean s = listMean u →
        0 < listMean s → listVariance s ≤ listVariance u →
        calculateConsistencyScore u ≤ calculateConsistencyScore s) := by
  refine ⟨?_, ?_, ?_⟩
  · intro s
    unfold calculateConsistencyScore
    split_ifs with h
    · exact ⟨zero_le_one, le_refl 1⟩
    · dsimp only
      have hcv : (0 : ℝ) ≤ (if 0 < listMean s then
          Real.sqrt ((listVariance s : ℚ) : ℝ) / ((listMean s : ℚ) : ℝ) else 0) := by
        split_ifs with hm
        · apply div_nonneg (Real.sqrt_nonneg _)
          exact_mod_cast hm.le
        · exact le_refl 0
      constructor
      · exact le_max_left 0 _
      · apply max_le (by norm_num)
        have : (0 : ℝ) ≤ (if 0 < listMean s then
            Real.sqrt ((listVariance s : ℚ) : ℝ) / ((listMean s : ℚ) : ℝ) else 0) / 0.5 := by
          apply div_nonneg hcv
          norm_num
        linarith
  · intro n x h
    unfold calculateConsistencyScore
    split_ifs with hn
    · rfl
    · dsimp only
      rw [listMean_replicate n x h, listVariance_replicate n x h]
      split_ifs with hx
      · simp
      · simp
  · intro s u hs hu hmean hmpos hvar
    unfold calculateConsistencyScore
    rw [if_neg (not_lt.mpr hs), if_neg (not_lt.mpr hu)]
    dsimp only
    rw [← hmean]
    rw [if_pos hmpos, if_pos hmpos]
    have hm : (0 : ℝ) < ((listMean s : ℚ) : ℝ) := by exact_mod_cast hmpos
    have hsq : Real.sqrt ((listVariance s : ℚ) : ℝ) ≤
        Real.sqrt ((listVariance u : ℚ) : ℝ) := by
      apply Real.sqrt_le_sqrt
      exact_mod_cast hvar
    have h1 : Real.sqrt ((listVariance s : ℚ) : ℝ) / ((listMean s : ℚ) : ℝ) ≤
        Real.sqrt ((listVariance u : ℚ) : ℝ) / ((listMean s : ℚ) : ℝ) := by
      gcongr
    apply max_le_max le_rfl
    have h2 : Real.sqrt ((listVariance s : ℚ) : ℝ) / ((listMean s : ℚ) : ℝ) / 0.5 ≤
        Real.sqrt ((listVariance u : ℚ) : ℝ) / ((listMean s : ℚ) : ℝ) / 0.5 := by
      gcongr
    linarith

/-- Witness for C9 at concrete score lists of equal mean 80. -/
theorem c9_consistency_properties_witness :
    (2 ≤ ([80, 80] : List ℚ).length) ∧ (2 ≤ ([70, 90] : List ℚ).length)
    ∧ listMean [80, 80] = listMean [70, 90] ∧ (0 : ℚ) < listMean [80, 80]
    ∧ listVariance [80, 80] ≤ listVariance [70, 90]
    ∧ calculateConsistencyScore [70, 90] ≤ calculateConsistencyScore [80, 80]
    ∧ calculateConsistencyScore (List.replicate 2 (80 : ℚ)) = 1 := by
  refine ⟨by norm_num, by norm_num, by norm_num [listMean], by norm_num [listMean],
    by norm_num [listVariance, listMean], ?_, ?_⟩
  · exact c9_consistency_properties.2.2 [80, 80] [70, 90] (by norm_num) (by norm_num)
      (by norm_num [listMean]) (by norm_num [listMean]) (by norm_num [listVariance, listMean])
  · exact c9_consistency_properties.2.1 2 80 (by norm_num)

/-! ## Ensemble weights and clamping (C2) -/

theorem ensembleCombine_bounds (l p tr ty d c r : ℚ) :
    0 ≤ ensembleCombine l p tr ty d c r ∧ ensembleCombine l p tr ty d c r ≤ 100 := by
  unfold ensembleCombine
  exact ⟨le_max_left 0 _, max_le (by norm_num) (min_le_left _ _)⟩

/-- C2: the seven fixed ensemble component weights sum to exactly 1 (hence to
1 within 1e-9), the combination step is the clamped weighted sum against
those weights, and in ensemble mode the returned `final_prediction` lies in
[0, 100] for every input, whatever values the individual components take. -/
theorem c2_ensemble_weights_and_bounds :
    ensembleWeights.sum = 1
    ∧ |ensembleWeights.sum - 1| ≤ 1 / 1000000000
    ∧ (∀ l p tr ty d c r : ℚ, ensembleCombine l p tr ty d c r =
        max 0 (min 100 ((List.zipWith (fun a b => a * b) [l, p, tr, ty, d, c, r]
          ensembleWeights).sum)))
    ∧ (∀ (sp : StudentPatterns) (aa : DifficultyAnalysis) (cp : ClassPatterns)
        (lf pf : Except PyErr ℚ),
        0 ≤ (calculateMlPredictions (.patterns sp) aa cp "ensemble" lf pf).final_prediction
        ∧ (calculateMlPredictions (.patterns sp) aa cp "ensemble" lf pf).final_prediction
            ≤ 100) := by
  have hsum : ensembleWeights.sum = 1 := by norm_num [ensembleWeights]
  refine ⟨hsum, by rw [hsum]; norm_num, ?_, ?_⟩
  · intro l p tr ty d c r
    show ensembleCombine l p tr ty d c r = max 0 (min 100 _)
    unfold ensembleCombine ensembleWeights
    norm_num [List.zipWith]
    ring_nf
  · intro sp aa cp lf pf
    have hred : (calculateMlPredictions (.patterns sp) aa cp "ensemble" lf pf).final_prediction
        = pyRoundTo 1 (ensembleCombine (sklearnLinearRegressionValue sp aa lf)
            (sklearnPolynomialRegressionValue sp aa pf) (trendBasedPrediction sp)
            (typeCorrelationPrediction sp aa) (difficultyAdjustedPrediction sp aa)
            (classComparativePrediction sp aa cp) (rankBasedPrediction sp aa)) := rfl
    rw [hred]
    obtain ⟨h0, h100⟩ := ensembleCombine_bounds (sklearnLinearRegressionValue sp aa lf)
      (sklearnPolynomialRegressionValue sp aa pf) (trendBasedPrediction sp)
      (typeCorrelationPrediction sp aa) (difficultyAdjustedPrediction sp aa)
      (classComparativePrediction sp aa cp) (rankBasedPrediction sp aa)
    constructor
    · have h := le_pyRoundTo 0 1 _ h0
      simpa using h
    · have h := pyRoundTo_le 100 1 _ (by exact_mod_cast h100)
      simpa using h

/-! ## Error containment of the public prediction operation (C1) -/

/-- C1: for every input state and mode, `predict_missing_assessment_score`
returns a plain result and never lets an exception escape: either the full
ensemble succeeded and its result is returned, or the exception was caught and
replaced by the flat fallback - the enrollment's current aggregator
`predicted` value with confidence 0.3 and a ±15 range clamped to [0, 100],
or, when even the fallback's grade fetch fails, the default result with
predicted score 75.0, confidence 0.1 and range {min 60, max 90}. -/
theorem c1_predict_never_raises (inp : PredictInputs) (mode : String) :
    (∃ p, runPredictionEnsemble inp mode = .ok p ∧
      predictMissingAssessmentScore inp mode = resultOfPrediction p)
    ∨ ((∃ e, runPredictionEnsemble inp mode = .error e) ∧
       ((∃ rows, inp.fallbackRows = .ok rows ∧
          predictMissingAssessmentScore inp mode =
            { predicted_score := (calculateStudentGrade rows).predicted
              confidence := 0.3
              range_min := ((max 0 ((calculateStudentGrade rows).predicted - 15) : ℚ) : ℝ)
              range_max := ((min 100 ((calculateStudentGrade rows).predicted + 15) : ℚ) : ℝ)
              contributing_factors := ["Using simple average fallback"]
              algorithm_breakdown := [("fallback", (calculateStudentGrade rows).predicted)] })
        ∨ ((∃ e, inp.fallbackRows = .error e) ∧
           predictMissingAssessmentScore inp mode =
             { predicted_score := 75, confidence := 0.1, range_min := 60, range_max := 90,
               contributing_factors := ["No data available - using default estimate"],
               algorithm_breakdown := [("default", 75)] }))) := by
  cases hrun : runPredictionEnsemble inp mode with
  | ok p =>
    left
    exact ⟨p, rfl, by simp [predictMissingAssessmentScore, hrun]⟩
  | error e =>
    right
    refine ⟨⟨e, rfl⟩, ?_⟩
    cases hfb : inp.fallbackRows with
    | ok rows =>
      left
      exact ⟨rows, rfl, by simp [predictMissingAssessmentScore, hrun, fallbackPrediction, hfb]⟩
    | error e2 =>
      right
      exact ⟨⟨e2, rfl⟩,
        by simp [predictMissingAssessmentScore, hrun, fallbackPrediction, hfb]⟩

/-! ## Insufficient-data short-circuit (C3) -/

theorem runEnsemble_insufficient (rows : List StudentRow) (ainfo : AssessmentInfo)
    (peers : List ℚ) (cid : ℕ) (crows : List ClassRow) (lf pf : Except PyErr ℚ)
    (fb : Except PyErr (List GradeRow)) (mode : String) (hrows : rows.length < 2)
    {aa : DifficultyAnalysis}
    (haa : analyzeAssessmentDifficulty (some ainfo) peers = .ok aa) :
    predictMissingAssessmentScore
      ⟨.ok rows, .ok (some ainfo), .ok peers, .ok (some cid), .ok crows, lf, pf, fb⟩ mode =
      resultOfPrediction (generateInsufficientDataPrediction aa) := by
  have hsa : analyzeStudentPatterns rows = .ok .insufficientData := by
    unfold analyzeStudentPatterns
    rw [if_pos hrows]
  have hrun : runPredictionEnsemble ⟨.ok rows, .ok (some ainfo), .ok peers, .ok (some cid),
      .ok crows, lf, pf, fb⟩ mode = .ok (generateInsufficientDataPrediction aa) := by
    unfold runPredictionEnsemble
    simp [Bind.bind, Except.bind, hsa, haa, analyzeClassPatterns, calculateMlPredictions]
  simp [predictMissingAssessmentScore, hrun]

/-- C3: with fewer than 2 graded entries the prediction short-circuits to the
insufficient-data result for every mode: the peer class average with
confidence 0.4 when peer scores exist, else the weight-tiered default
(72 / 78 / 82) with confidence 0.2; the result is exactly the output of the
component-free `_generate_insufficient_data_prediction`, and the returned
confidence never exceeds 0.4. -/
theorem c3_insufficient_data_short_circuit (rows : List StudentRow)
    (ainfo : AssessmentInfo) (peers : List ℚ) (cid : ℕ) (crows : List ClassRow)
    (lf pf : Except PyErr ℚ) (fb : Except PyErr (List GradeRow)) (mode : String)
    (hrows : rows.length < 2) :
    (∃ aa, analyzeAssessmentDifficulty (some ainfo) peers = .ok aa ∧
      predictMissingAssessmentScore
        ⟨.ok rows, .ok (some ainfo), .ok peers, .ok (some cid), .ok crows, lf, pf, fb⟩ mode =
        resultOfPrediction (generateInsufficientDataPrediction aa))
    ∧ (predictMissingAssessmentScore
        ⟨.ok rows, .ok (some ainfo), .ok peers, .ok (some cid), .ok crows, lf, pf, fb⟩
        mode).confidence ≤ 0.4
    ∧ (peers ≠ [] →
        (predictMissingAssessmentScore
          ⟨.ok rows, .ok (some ainfo), .ok peers, .ok (some cid), .ok crows, lf, pf, fb⟩
          mode).predicted_score = peers.sum / (peers.length : ℚ)
        ∧ (predictMissingAssessmentScore
            ⟨.ok rows, .ok (some ainfo), .ok peers, .ok (some cid), .ok crows, lf, pf, fb⟩
            mode).confidence = 0.4)
    ∧ (peers = [] →
        (predictMissingAssessmentScore
          ⟨.ok rows, .ok (some ainfo), .ok peers, .ok (some cid), .ok crows, lf, pf, fb⟩
          mode).predicted_score =
          (if 30 ≤ ainfo.weight then 72 else if 20 ≤ ainfo.weight then 78 else 82)
        ∧ (predictMissingAssessmentScore
            ⟨.ok rows, .ok (some ainfo), .ok peers, .ok (some cid), .ok crows, lf, pf, fb⟩
            mode).confidence = 0.2) := by
  rcases peers with _ | ⟨p0, ptl⟩
  · have haa : analyzeAssessmentDifficulty (some ainfo) [] = .ok
        { estimated_difficulty := some (estimateDifficultyFromWeight ainfo.weight)
          class_average := none
          class_std_dev := none
          difficulty := none
          assessment_type := classifyAssessmentType ainfo.name ainfo.description
          weight := ainfo.weight
          score_distribution := none
          has_class_data := false } := by
      simp [analyzeAssessmentDifficulty]
    have hres := runEnsemble_insufficient rows ainfo [] cid crows lf pf fb mode hrows haa
    refine ⟨⟨_, haa, hres⟩, ?_, ?_, ?_⟩
    · rw [hres]
      simp [resultOfPrediction, generateInsufficientDataPrediction]
      norm_num
    · intro h
      exact absurd rfl h
    · intro _
      rw [hres]
      constructor
      · simp [resultOfPrediction, generateInsufficientDataPrediction,
          estimateDifficultyFromWeight]
      · simp [resultOfPrediction, generateInsufficientDataPrediction]
  · have haa : analyzeAssessmentDifficulty (some ainfo) (p0 :: ptl) = .ok
        { estimated_difficulty := none
          class_average := some ((p0 :: ptl).sum / (((p0 :: ptl).length : ℕ) : ℚ))
          class_std_dev := some (Real.sqrt ((((p0 :: ptl).map
            (fun x => (x - (p0 :: ptl).sum / (((p0 :: ptl).length : ℕ) : ℚ)) ^ 2)).sum /
              (((p0 :: ptl).length : ℕ) : ℚ) : ℚ) : ℝ))
          difficulty := some
            (if 85 ≤ (p0 :: ptl).sum / (((p0 :: ptl).length : ℕ) : ℚ) then "easy"
             else if 75 ≤ (p0 :: ptl).sum / (((p0 :: ptl).length : ℕ) : ℚ) then "moderate"
             else if 65 ≤ (p0 :: ptl).sum / (((p0 :: ptl).length : ℕ) : ℚ) then "hard"
             else "very_hard")
          assessment_type := classifyAssessmentType ainfo.name ainfo.description
          weight := ainfo.weight
          score_distribution := some (p0 :: ptl)
          has_class_data := true } := by
      simp [analyzeAssessmentDifficulty]
    have hres := runEnsemble_insufficient rows ainfo (p0 :: ptl) cid crows lf pf fb mode
      hrows haa
    refine ⟨⟨_, haa, hres⟩, ?_, ?_, ?_⟩
    · rw [hres]
      simp [resultOfPrediction, generateInsufficientDataPrediction]
    · intro _
      rw [hres]
      constructor
      · simp [resultOfPrediction, generateInsufficientDataPrediction]
      · simp [resultOfPrediction, generateInsufficientDataPrediction]
    · intro h
      exact absurd h (by simp)

/-- Witness for C3: an enrollment with no graded entries and an assessment of
weight 25 with no peer scores. -/
theorem c3_insufficient_data_short_circuit_witness :
    (([] : List StudentRow).length < 2)
    ∧ (predictMissingAssessmentScore
        ⟨.ok [], .ok (some ⟨"Quiz 1", 25, none⟩), .ok [], .ok (some 1), .ok [],
         .ok 75, .ok 75, .ok []⟩ "ensemble").confidence ≤ 0.4 :=
  ⟨by norm_num,
   (c3_insufficient_data_short_circuit [] ⟨"Quiz 1", 25, none⟩ [] 1 [] (.ok 75) (.ok 75)
      (.ok []) "ensemble" (by norm_num)).2.1⟩

/-! ## Class statistics include zero-graded students (C10) -/

theorem gradeFold_no_scores (g : List GradeRow) (hg : ∀ r ∈ g, r.score = none) :
    (gradeFold g).2.1 = 0 ∧ (gradeFold g).2.2 = 0 := by
  induction g with
  | nil => simp [gradeFold]
  | cons r rest ih =>
    have hg' : ∀ x ∈ rest, x.score = none := fun x hx => hg x (List.mem_cons_of_mem _ hx)
    have hr : r.score = none := hg r (List.mem_cons_self _ _)
    obtain ⟨h1, h2⟩ := ih hg'
    cases hwt : r.weight with
    | none => simpa [gradeFold, hwt] using ⟨h1, h2⟩
    | some w => simp [gradeFold, hwt, hr, h1, h2]

theorem predicted_zero_of_no_scores (g : List GradeRow) (hg : ∀ r ∈ g, r.score = none) :
    (calculateStudentGrade g).predicted = 0 := by
  obtain ⟨h1, h2⟩ := gradeFold_no_scores g hg
  show (if 0 < (gradeFold g).2.2 then (gradeFold g).2.1 / (gradeFold g).2.2 * 100 else 0) = 0
  rw [h2]
  simp

theorem predicted_nonneg (rows : List GradeRow) (hw : WeightsNonneg rows)
    (hs : ScoresValid rows) : 0 ≤ (calculateStudentGrade rows).predicted := by
  obtain ⟨hws0, _⟩ := gradeFold_ws_bounds rows hw hs
  show 0 ≤ (if 0 < (gradeFold rows).2.2 then (gradeFold rows).2.1 / (gradeFold rows).2.2 * 100
    else 0)
  split_ifs with h
  · exact mul_nonneg (div_nonneg hws0 h.le) (by norm_num)
  · exact le_refl 0

theorem gradeDistributionOf_append_zero (l : List ℚ) :
    gradeDistributionOf (l ++ [0]) =
      { gradeDistributionOf l with E := (gradeDistributionOf l).E + 1 } := by
  unfold gradeDistributionOf
  rw [List.foldl_append]
  norm_num [bucketStep]

theorem passingCount_append_zero (l : List ℚ) :
    passingCount (l ++ [(0 : ℚ)]) = passingCount l := by
  unfold passingCount
  rw [List.countP_append]
  norm_num [List.countP_cons]

theorem foldl_min_nonneg (t : List ℚ) (h : ℚ) (hh : 0 ≤ h) (ht : ∀ x ∈ t, 0 ≤ x) :
    0 ≤ t.foldl min h := by
  induction t generalizing h with
  | nil => simpa using hh
  | cons a t ih =>
    simp only [List.foldl]
    exact ih (min h a) (le_min hh (ht a (List.mem_cons_self _ _)))
      (fun x hx => ht x (List.mem_cons_of_mem _ hx))

theorem listMin_append_zero (l : List ℚ) (hl : ∀ x ∈ l, 0 ≤ x) :
    listMin (l ++ [0]) = 0 := by
  cases l with
  | nil => simp [listMin]
  | cons h t =>
    show (t ++ [(0 : ℚ)]).foldl min h = 0
    rw [List.foldl_append]
    simp only [List.foldl]
    exact min_eq_right (foldl_min_nonneg t h (hl h (List.mem_cons_self _ _))
      (fun x hx => hl x (List.mem_cons_of_mem _ hx)))

theorem getClassStatistics_fields (e : List (List GradeRow)) (hne : e ≠ []) :
    (getClassStatistics e).mean_grade =
      pyRoundTo 2 ((predictedGradesOf e).sum / ((predictedGradesOf e).length : ℚ))
    ∧ (getClassStatistics e).lowest_grade = pyRoundTo 2 (listMin (predictedGradesOf e))
    ∧ (getClassStatistics e).passing_rate =
      pyRoundTo 2 ((passingCount (predictedGradesOf e) : ℚ) /
        ((predictedGradesOf e).length : ℚ) * 100)
    ∧ (getClassStatistics e).grade_distribution = gradeDistributionOf (predictedGradesOf e)
    ∧ (getClassStatistics e).student_count = e.length := by
  cases e with
  | nil => exact absurd rfl hne
  | cons a l => exact ⟨rfl, rfl, rfl, rfl, rfl⟩

/-- C10: the statistics engine includes every enrolled student.  A student
with zero graded entries has snapshot `predicted = 0`, lands in the `E`
bucket, is not counted as passing, forces `lowest_grade` to 0, and weakly
decreases `passing_rate` and `mean_grade`; `student_count` always equals the
number of enrollments. -/
theorem c10_zero_graded_student_included (xs : List (List GradeRow)) (g : List GradeRow)
    (hxw : ∀ rows ∈ xs, WeightsNonneg rows) (hxs : ∀ rows ∈ xs, ScoresValid rows)
    (hg : ∀ r ∈ g, r.score = none) :
    (∀ ys : List (List GradeRow), (getClassStatistics ys).student_count = ys.length)
    ∧ (calculateStudentGrade g).predicted = 0
    ∧ (getClassStatistics (xs ++ [g])).grade_distribution =
        { gradeDistributionOf (predictedGradesOf xs) with
          E := (gradeDistributionOf (predictedGradesOf xs)).E + 1 }
    ∧ passingCount (predictedGradesOf (xs ++ [g])) = passingCount (predictedGradesOf xs)
    ∧ (getClassStatistics (xs ++ [g])).lowest_grade = 0
    ∧ (xs ≠ [] →
        (getClassStatistics (xs ++ [g])).passing_rate ≤ (getClassStatistics xs).passing_rate
        ∧ (getClassStatistics (xs ++ [g])).mean_grade ≤ (getClassStatistics xs).mean_grade) := by
  have hpred0 : (calculateStudentGrade g).predicted = 0 := predicted_zero_of_no_scores g hg
  have hmap : predictedGradesOf (xs ++ [g]) = predictedGradesOf xs ++ [0] := by
    unfold predictedGradesOf
    rw [List.map_append]
    simp [hpred0]
  have hne : xs ++ [g] ≠ [] := by simp
  obtain ⟨hmean, hlow, hpass, hdist, _⟩ := getClassStatistics_fields (xs ++ [g]) hne
  have hnonneg : ∀ x ∈ predictedGradesOf xs, 0 ≤ x := by
    intro x hx
    obtain ⟨rows, hrow, rfl⟩ := List.mem_map.mp hx
    exact predicted_nonneg rows (hxw rows hrow) (hxs rows hrow)
  refine ⟨?_, hpred0, ?_, ?_, ?_, ?_⟩
  · intro ys
    cases ys with
    | nil => rfl
    | cons a l => rfl
  · rw [hdist, hmap, gradeDistributionOf_append_zero]
  · rw [hmap]
    exact passingCount_append_zero _
  · rw [hlow, hmap, listMin_append_zero _ hnonneg, pyRoundTo_zero]
  · intro hxne
    obtain ⟨hmean2, _, hpass2, _, _⟩ := getClassStatistics_fields xs hxne
    have hlen : (predictedGradesOf (xs ++ [g])).length = (predictedGradesOf xs).length + 1 := by
      rw [hmap]
      simp
    have hnpos : 0 < ((predictedGradesOf xs).length : ℚ) := by
      have : xs.length ≠ 0 := fun h => hxne (List.length_eq_zero.mp h)
      have hxlen : (predictedGradesOf xs).length = xs.length := by simp [predictedGradesOf]
      rw [hxlen]
      exact_mod_cast Nat.pos_of_ne_zero this
    constructor
    · rw [hpass, hpass2, hlen, hmap, passingCount_append_zero]
      apply pyRoundTo_mono
      have hP0 : (0 : ℚ) ≤ (passingCount (predictedGradesOf xs) : ℚ) := by positivity
      push_cast
      have hstep : (passingCount (predictedGradesOf xs) : ℚ) /
            (((predictedGradesOf xs).length : ℚ) + 1) ≤
          (passingCount (predictedGradesOf xs) : ℚ) /
            ((predictedGradesOf xs).length : ℚ) := by
        gcongr
        linarith
      nlinarith
    · rw [hmean, hmean2, hlen, hmap]
      have hsum : (predictedGradesOf xs ++ [(0 : ℚ)]).sum = (predictedGradesOf xs).sum := by
        simp
      rw [hsum]
      apply pyRoundTo_mono
      have hS0 : 0 ≤ (predictedGradesOf xs).sum := List.sum_nonneg hnonneg
      push_cast
      gcongr
      linarith

theorem singletonRow_weights : WeightsNonneg [(⟨some 100, some 80⟩ : GradeRow)] := by
  intro r hr w hwq
  rw [List.mem_singleton] at hr
  subst hr
  have h : (100 : ℚ) = w := by simpa using hwq
  linarith

theorem singletonRow_scores : ScoresValid [(⟨some 100, some 80⟩ : GradeRow)] := by
  intro r hr x hx
  rw [List.mem_singleton] at hr
  subst hr
  have h : (80 : ℚ) = x := by simpa using hx
  exact ⟨by linarith, by linarith⟩

/-- Witness for C10: one graded enrollment plus one enrollment with no
recorded scores. -/
theorem c10_zero_graded_student_included_witness :
    (∀ r ∈ ([⟨some 100, none⟩] : List GradeRow), r.score = none)
    ∧ (calculateStudentGrade [(⟨some 100, none⟩ : GradeRow)]).predicted = 0
    ∧ (getClassStatistics ([[(⟨some 100, some 80⟩ : GradeRow)]] ++
        [[⟨some 100, none⟩]])).lowest_grade = 0 := by
  have hg : ∀ r ∈ ([⟨some 100, none⟩] : List GradeRow), r.score = none := by
    intro r hr
    rw [List.mem_singleton] at hr
    subst hr
    rfl
  have hxw : ∀ rows ∈ [[(⟨some 100, some 80⟩ : GradeRow)]], WeightsNonneg rows := by
    intro rows hrow
    rw [List.mem_singleton] at hrow
    subst hrow
    exact singletonRow_weights
  have hxs : ∀ rows ∈ [[(⟨some 100, some 80⟩ : GradeRow)]], ScoresValid rows := by
    intro rows hrow
    rw [List.mem_singleton] at hrow
    subst hrow
    exact singletonRow_scores
  exact ⟨hg,
    (c10_zero_graded_student_included [[⟨some 100, some 80⟩]] [⟨some 100, none⟩]
      hxw hxs hg).2.1,
    (c10_zero_graded_student_included [[⟨some 100, some 80⟩]] [⟨some 100, none⟩]
      hxw hxs hg).2.2.2.2.1⟩

end SmartGrades
